import Mathlib

/-!
Verification of the RDM responder core (rdm_responder.c) and the coarse
timer (coarse_timer.c) of the ja-rule firmware, as a shallow embedding.

Bytes are modelled as Nat values (kept below 256 at the points where the C
type system guarantees it), UIDs and frames as List Nat, and the mutable
responder state as an explicit structure that the embedded functions
thread through.  Each embedded function mirrors the control flow of the C
function of the same name.  Helper routines whose sources are not part of
this tree (rdm_util.c, utils.h, constants.h) are modelled from the spec
and are marked as such in their doc comments.
-/

-- Constants
-- ---------------------------------------------------------------------------

/-- Modelled from the spec: a UID is 6 bytes (constants.h UID_LENGTH). -/
def UID_LENGTH : Nat := 6

/-- Modelled from the spec: a handler returning 0 sends nothing
(constants.h RDM_RESPONDER_NO_RESPONSE). -/
def RDM_RESPONDER_NO_RESPONSE : Int := 0

/-- Modelled from the spec: a DUB response is 24 bytes, 7 preamble bytes,
one delimiter, 12 encoded UID bytes and 4 encoded checksum bytes
(constants.h DUB_RESPONSE_LENGTH). -/
def DUB_RESPONSE_LENGTH : Nat := 24

/-- Modelled from the spec: the RDM start code is 0xCC. -/
def RDM_START_CODE : Nat := 0xcc

/-- Modelled from the spec: the RDM sub start code is 0x01. -/
def SUB_START_CODE : Nat := 0x01

/-- Modelled from the spec: the RDM header occupies 24 bytes
(sizeof RDMHeader). -/
def RDM_HEADER_SIZE : Nat := 24

/-- Modelled from the spec: the root sub device is 0. -/
def SUBDEVICE_ROOT : Nat := 0

/-- Modelled from the spec: DMX start addresses range over 1..512
(constants.h MAX_DMX_START_ADDRESS). -/
def MAX_DMX_START_ADDRESS : Nat := 512

/-- Modelled from the spec: the invalid DMX start address marker 0xffff. -/
def INVALID_DMX_START_ADDRESS : Nat := 0xffff

/-- Modelled from the spec: RDM label strings hold at most 32 bytes
(RDM_DEFAULT_STRING_SIZE). -/
def RDM_DEFAULT_STRING_SIZE : Nat := 32

/-- Modelled from the spec: E1.20 command class DISCOVERY_COMMAND. -/
def DISCOVERY_COMMAND : Nat := 0x10

/-- Modelled from the spec: E1.20 command class DISCOVERY_COMMAND_RESPONSE. -/
def DISCOVERY_COMMAND_RESPONSE : Nat := 0x11

/-- Modelled from the spec: E1.20 command class GET_COMMAND. -/
def GET_COMMAND : Nat := 0x20

/-- Modelled from the spec: E1.20 command class GET_COMMAND_RESPONSE. -/
def GET_COMMAND_RESPONSE : Nat := 0x21

/-- Modelled from the spec: E1.20 command class SET_COMMAND. -/
def SET_COMMAND : Nat := 0x30

/-- Modelled from the spec: E1.20 command class SET_COMMAND_RESPONSE. -/
def SET_COMMAND_RESPONSE : Nat := 0x31

/-- Modelled from the spec: response type ACK. -/
def ACK : Nat := 0x00

/-- Modelled from the spec: response type ACK_TIMER. -/
def ACK_TIMER : Nat := 0x01

/-- Modelled from the spec: response type NACK_REASON. -/
def NACK_REASON : Nat := 0x02

/-- Modelled from the spec: NACK reason code NR_UNKNOWN_PID. -/
def NR_UNKNOWN_PID : Nat := 0x0000

/-- Modelled from the spec: NACK reason code NR_FORMAT_ERROR. -/
def NR_FORMAT_ERROR : Nat := 0x0001

/-- Modelled from the spec: NACK reason code NR_HARDWARE_FAULT. -/
def NR_HARDWARE_FAULT : Nat := 0x0002

/-- Modelled from the spec: NACK reason code NR_UNSUPPORTED_COMMAND_CLASS. -/
def NR_UNSUPPORTED_COMMAND_CLASS : Nat := 0x0005

/-- Modelled from the spec: NACK reason code NR_DATA_OUT_OF_RANGE. -/
def NR_DATA_OUT_OF_RANGE : Nat := 0x0006

/-- Modelled from the spec: E1.20 parameter id DISC_UNIQUE_BRANCH. -/
def PID_DISC_UNIQUE_BRANCH : Nat := 0x0001

/-- Modelled from the spec: E1.20 parameter id DISC_MUTE. -/
def PID_DISC_MUTE : Nat := 0x0002

/-- Modelled from the spec: E1.20 parameter id DISC_UN_MUTE. -/
def PID_DISC_UN_MUTE : Nat := 0x0003

/-- Modelled from the spec: E1.20 parameter id SUPPORTED_PARAMETERS. -/
def PID_SUPPORTED_PARAMETERS : Nat := 0x0050

/-- Modelled from the spec: E1.20 parameter id PARAMETER_DESCRIPTION. -/
def PID_PARAMETER_DESCRIPTION : Nat := 0x0051

/-- Modelled from the spec: E1.20 parameter id DEVICE_INFO. -/
def PID_DEVICE_INFO : Nat := 0x0060

/-- Modelled from the spec: E1.20 parameter id SOFTWARE_VERSION_LABEL. -/
def PID_SOFTWARE_VERSION_LABEL : Nat := 0x00c0

/-- Modelled from the spec: E1.20 parameter id DMX_START_ADDRESS. -/
def PID_DMX_START_ADDRESS : Nat := 0x00f0

/-- Modelled from the spec: E1.20 parameter id IDENTIFY_DEVICE. -/
def PID_IDENTIFY_DEVICE : Nat := 0x1000

-- rdm_responder.c file-local constants.

def FIVE5_CONSTANT : Nat := 0x55

def AA_CONSTANT : Nat := 0xaa

def FE_CONSTANT : Nat := 0xfe

-- Byte helpers (utils.h, not under src/)
-- ---------------------------------------------------------------------------

/-- Modelled from the spec: the high byte of a 16-bit value (utils.h
ShortMSB, a uint8 cast of the value shifted right by 8). -/
def ShortMSB (v : Nat) : Nat := (v >>> 8) % 256

/-- Modelled from the spec: the low byte of a 16-bit value (utils.h
ShortLSB). -/
def ShortLSB (v : Nat) : Nat := v % 256

/-- Modelled from the spec: join two bytes big-endian into a 16-bit value
(utils.h JoinShort). -/
def JoinShort (a b : Nat) : Nat := (a % 256) * 256 + (b % 256)

/-- Modelled from the spec: serialize a 16-bit value as two big-endian
bytes (utils.h PushUInt16). -/
def PushUInt16 (v : Nat) : List Nat := [ShortMSB v, ShortLSB v]

-- RDM utility helpers (rdm_util.c, not under src/)
-- ---------------------------------------------------------------------------

/-- Modelled from the spec: UID comparison is lexicographic big-endian
over the six UID bytes (rdm_util.c RDMUtil_UIDCompare, memcmp
semantics returning negative, zero or positive). -/
def RDMUtil_UIDCompare : List Nat → List Nat → Int
  | a0 :: arest, b0 :: brest =>
    if a0 < b0 then -1
    else if b0 < a0 then 1
    else RDMUtil_UIDCompare arest brest
  | _, _ => 0

/-- Modelled from the spec: broadcast UIDs have device id 0xffffffff; a
UID is unicast when the device id part (the lower four bytes) is not
all ones (rdm_util.c RDMUtil_IsUnicast). -/
def RDMUtil_IsUnicast (uid : List Nat) : Bool :=
  !(((uid.drop 2).take 4).all (fun b => b == 0xff))

/-- Modelled from the spec: bounded string copy; copies at most the
source size and at most the destination size bytes, stopping at a NUL
terminator (rdm_util.c RDMUtil_StringCopy).  The model returns the
copied bytes. -/
def RDMUtil_StringCopy (dest_size : Nat) (src : List Nat) (src_size : Nat) :
    List Nat :=
  ((src.take src_size).takeWhile (fun b => b ≠ 0)).take dest_size

/-- Modelled from the spec: compute the 16-bit additive checksum over the
declared message length bytes of the frame and append it as two
big-endian bytes; the returned code is the total frame size, message
length plus two (rdm_util.c RDMUtil_AppendChecksum). -/
def RDMUtil_AppendChecksum (frame : List Nat) : Int × List Nat :=
  let len := frame.getD 2 0
  let checksum := (frame.take len).sum % 65536
  (Int.ofNat (len + 2), frame.take len ++ PushUInt16 checksum)

-- Data model (rdm_responder.h shapes, instantiated by rdm_responder.c)
-- ---------------------------------------------------------------------------

/-- The 24-byte RDM request header, with multi-byte fields carried as
numeric values (the C code converts the big-endian wire fields with
ntohs before using them; the model stores the converted value). -/
structure RDMHeader where
  start_code : Nat
  sub_start_code : Nat
  message_length : Nat
  dest_uid : List Nat
  src_uid : List Nat
  transaction_number : Nat
  port_id : Nat
  message_count : Nat
  sub_device : Nat
  command_class : Nat
  param_id : Nat
  param_data_length : Nat

/-- One row of the PID descriptor table.  Handlers receive the request
header and the parameter data and produce a return code and the frame
bytes they stage in the shared buffer. -/
structure PIDDescriptor where
  pid : Nat
  get_handler : Option (RDMHeader → List Nat → Int × List Nat)
  set_handler : Option (RDMHeader → List Nat → Int × List Nat)
  get_param_size : Nat

/-- The subset of the ResponderDefinition used by the embedded
functions. -/
structure ResponderDefinition where
  descriptors : List PIDDescriptor
  personality_count : Nat
  default_device_label : List Nat

/-- The mutable responder state (struct RDMResponder).  The C field named
def is called defn here because def is a Lean keyword. -/
structure Responder where
  uid : List Nat
  defn : Option ResponderDefinition
  device_label : List Nat
  is_muted : Bool
  identify_on : Bool
  using_factory_defaults : Bool
  is_subdevice : Bool
  is_managed_proxy : Bool
  is_proxied_device : Bool
  current_personality : Nat
  dmx_start_address : Nat
  queued_message_count : Nat
  sub_device_count : Nat

-- Coarse timer (coarse_timer.c)
-- ---------------------------------------------------------------------------

/-- Unsigned 32-bit wraparound subtraction, the C expression
now - start on uint32 operands. -/
def sub32 (a b : Nat) : Nat :=
  (a % 4294967296 + 4294967296 - b % 4294967296) % 4294967296

/-- CoarseTimer_HasElapsed from coarse_timer.c: a zero duration has
always elapsed; otherwise the wraparound difference between the
current counter and the start time must strictly exceed the
duration.  The current counter value is passed explicitly in place of
the global g_coarse_timer.timer_count. -/
def CoarseTimer_HasElapsed (timer_count start_time duration : Nat) : Bool :=
  if duration = 0 then true
  else decide (sub32 timer_count start_time > duration)

-- Discovery (DUB) response construction (rdm_responder.c)
-- ---------------------------------------------------------------------------

/-- The 12 encoded UID bytes of a DUB response: each UID byte b becomes
the pair (b or 0xaa), (b or 0x55), big-endian byte order. -/
def dubEncodedUid (uid : List Nat) : List Nat :=
  [uid.getD 0 0 ||| AA_CONSTANT, uid.getD 0 0 ||| FIVE5_CONSTANT,
   uid.getD 1 0 ||| AA_CONSTANT, uid.getD 1 0 ||| FIVE5_CONSTANT,
   uid.getD 2 0 ||| AA_CONSTANT, uid.getD 2 0 ||| FIVE5_CONSTANT,
   uid.getD 3 0 ||| AA_CONSTANT, uid.getD 3 0 ||| FIVE5_CONSTANT,
   uid.getD 4 0 ||| AA_CONSTANT, uid.getD 4 0 ||| FIVE5_CONSTANT,
   uid.getD 5 0 ||| AA_CONSTANT, uid.getD 5 0 ||| FIVE5_CONSTANT]

/-- The 24 bytes RDMResponder_HandleDUBRequest writes into g_rdm_buffer:
seven 0xfe bytes, the 0xaa delimiter, the encoded UID, then the
16-bit additive checksum of the 12 encoded UID bytes, its high and
low bytes each expanded the same way. -/
def dubResponseBytes (uid : List Nat) : List Nat :=
  let encoded := dubEncodedUid uid
  let checksum := encoded.sum % 65536
  [FE_CONSTANT, FE_CONSTANT, FE_CONSTANT, FE_CONSTANT,
   FE_CONSTANT, FE_CONSTANT, FE_CONSTANT, AA_CONSTANT] ++ encoded ++
  [ShortMSB checksum ||| AA_CONSTANT, ShortMSB checksum ||| FIVE5_CONSTANT,
   ShortLSB checksum ||| AA_CONSTANT, ShortLSB checksum ||| FIVE5_CONSTANT]

/-- RDMResponder_HandleDUBRequest from rdm_responder.c.  The staged
frame bytes are returned alongside the return code; the no-response
paths stage nothing. -/
def RDMResponder_HandleDUBRequest (st : Responder) (param_data : List Nat)
    (param_data_length : Nat) : Int × List Nat :=
  if st.is_muted || param_data_length ≠ 2 * UID_LENGTH then
    (RDM_RESPONDER_NO_RESPONSE, [])
  else if ¬ (RDMUtil_UIDCompare (param_data.take UID_LENGTH) st.uid ≤ 0 ∧
             RDMUtil_UIDCompare st.uid
               ((param_data.drop UID_LENGTH).take UID_LENGTH) ≤ 0) then
    (RDM_RESPONDER_NO_RESPONSE, [])
  else
    (-(Int.ofNat DUB_RESPONSE_LENGTH), dubResponseBytes st.uid)

-- DUB decoding (spec section 4.4: mask out the 0xaa / 0x55 fill)
-- ---------------------------------------------------------------------------

/-- Decode the UID from a captured DUB response: each of the six byte
pairs at offsets 8..19 is combined with bitwise and, which masks out
the 0xaa / 0x55 fill. -/
def dubDecodeUid (resp : List Nat) : List Nat :=
  [resp.getD 8 0 &&& resp.getD 9 0,
   resp.getD 10 0 &&& resp.getD 11 0,
   resp.getD 12 0 &&& resp.getD 13 0,
   resp.getD 14 0 &&& resp.getD 15 0,
   resp.getD 16 0 &&& resp.getD 17 0,
   resp.getD 18 0 &&& resp.getD 19 0]

/-- Decode the 16-bit checksum from the two byte pairs at offsets
20..23 of a captured DUB response. -/
def dubDecodeChecksum (resp : List Nat) : Nat :=
  (resp.getD 20 0 &&& resp.getD 21 0) * 256 +
  (resp.getD 22 0 &&& resp.getD 23 0)

/-- A captured DUB response is checksum-consistent when the decoded
checksum equals the 16-bit additive sum of the 12 encoded UID bytes at
offsets 8..19. -/
def dubChecksumMatches (resp : List Nat) : Prop :=
  dubDecodeChecksum resp = ((resp.drop 8).take 12).sum % 65536

-- Reply frame construction (rdm_responder.c)
-- ---------------------------------------------------------------------------

/-- The response command class mapping of
RDMResponder_AddHeaderAndChecksum: discovery, get and set commands map
to their response classes; anything else yields no response. -/
def responseCommandClass (command_class : Nat) : Option Nat :=
  if command_class = DISCOVERY_COMMAND then some DISCOVERY_COMMAND_RESPONSE
  else if command_class = GET_COMMAND then some GET_COMMAND_RESPONSE
  else if command_class = SET_COMMAND then some SET_COMMAND_RESPONSE
  else none

/-- RDMResponder_AddHeaderAndChecksum from rdm_responder.c.  In the C
code the parameter data already sits in g_rdm_buffer after the header
and the caller passes message_length = 24 + its size; the model passes
the parameter data bytes explicitly and rebuilds the staged frame:
start codes, message length, destination = request source UID, source =
request destination UID, echoed transaction number, the response type,
the queued message count, echoed sub device, the mapped command class,
echoed parameter id and the parameter data length, then the checksum is
appended over the whole message. -/
def RDMResponder_AddHeaderAndChecksum (st : Responder) (header : RDMHeader)
    (response_type : Nat) (param_data : List Nat) : Int × List Nat :=
  match responseCommandClass header.command_class with
  | none => (RDM_RESPONDER_NO_RESPONSE, [])
  | some rcc =>
    let message_length := RDM_HEADER_SIZE + param_data.length
    RDMUtil_AppendChecksum
      ([RDM_START_CODE, SUB_START_CODE, message_length % 256] ++
       header.src_uid.take UID_LENGTH ++
       header.dest_uid.take UID_LENGTH ++
       [header.transaction_number % 256, response_type % 256,
        st.queued_message_count % 256] ++
       PushUInt16 header.sub_device ++
       [rcc] ++
       PushUInt16 header.param_id ++
       [param_data.length % 256] ++
       param_data)

/-- RDMResponder_BuildSetAck from rdm_responder.c: an empty ACK reply,
suppressed unless the request destination is unicast. -/
def RDMResponder_BuildSetAck (st : Responder) (header : RDMHeader) :
    Int × List Nat :=
  if ¬ RDMUtil_IsUnicast header.dest_uid then (RDM_RESPONDER_NO_RESPONSE, [])
  else RDMResponder_AddHeaderAndChecksum st header ACK []

/-- RDMResponder_BuildNack from rdm_responder.c: a NACK_REASON reply with
the two-byte reason code, suppressed unless the request destination is
unicast (the ReturnUnlessUnicast guard runs before any byte is
staged). -/
def RDMResponder_BuildNack (st : Responder) (header : RDMHeader)
    (reason : Nat) : Int × List Nat :=
  if ¬ RDMUtil_IsUnicast header.dest_uid then (RDM_RESPONDER_NO_RESPONSE, [])
  else RDMResponder_AddHeaderAndChecksum st header NACK_REASON
    (PushUInt16 reason)

-- Mute handling (rdm_responder.c)
-- ---------------------------------------------------------------------------

/-- GetControlField from rdm_responder.c: bit 0 when sub devices are
present, bit 1 for a managed proxy, bit 2 for a proxied device. -/
def GetControlField (st : Responder) : Nat :=
  (if st.sub_device_count ≠ 0 then 1 else 0) |||
  (if st.is_managed_proxy then 2 else 0) |||
  (if st.is_proxied_device then 4 else 0)

/-- RDMResponder_SetMute from rdm_responder.c: a request with parameter
data yields no response and no state change; otherwise the responder
is muted first, and only then the reply (an ACK carrying the control
field) is suppressed for a non-unicast destination.  The LED pin writes
are hardware effects outside the model. -/
def RDMResponder_SetMute (st : Responder) (header : RDMHeader) :
    Int × List Nat × Responder :=
  if header.param_data_length ≠ 0 then
    (RDM_RESPONDER_NO_RESPONSE, [], st)
  else
    let st2 := {st with is_muted := true}
    if ¬ RDMUtil_IsUnicast header.dest_uid then
      (RDM_RESPONDER_NO_RESPONSE, [], st2)
    else
      let r := RDMResponder_AddHeaderAndChecksum st2 header ACK
        (PushUInt16 (GetControlField st2))
      (r.1, r.2, st2)

/-- RDMResponder_SetUnMute from rdm_responder.c: as RDMResponder_SetMute
but clearing the muted flag. -/
def RDMResponder_SetUnMute (st : Responder) (header : RDMHeader) :
    Int × List Nat × Responder :=
  if header.param_data_length ≠ 0 then
    (RDM_RESPONDER_NO_RESPONSE, [], st)
  else
    let st2 := {st with is_muted := false}
    if ¬ RDMUtil_IsUnicast header.dest_uid then
      (RDM_RESPONDER_NO_RESPONSE, [], st2)
    else
      let r := RDMResponder_AddHeaderAndChecksum st2 header ACK
        (PushUInt16 (GetControlField st2))
      (r.1, r.2, st2)

-- PID dispatch (rdm_responder.c)
-- ---------------------------------------------------------------------------

/-- RDMResponder_DispatchPID from rdm_responder.c: linear scan of the
descriptor table for the request PID.  For a GET the destination must
be unicast, a GET handler must exist and the parameter data length
must equal the descriptor size; otherwise the appropriate NACK is
built.  Any other command class goes to the SET handler when present.
An unknown PID is NACKed with NR_UNKNOWN_PID.  The C code reads the
definition through g_responder->def without a null check; the model
returns no response for the (never exercised) missing-definition
case. -/
def RDMResponder_DispatchPID (st : Responder) (header : RDMHeader)
    (param_data : List Nat) : Int × List Nat :=
  match st.defn with
  | none => (RDM_RESPONDER_NO_RESPONSE, [])
  | some definition =>
    match definition.descriptors.find? (fun d => d.pid == header.param_id) with
    | some desc =>
      if header.command_class = GET_COMMAND then
        if RDMUtil_IsUnicast header.dest_uid then
          match desc.get_handler with
          | some handler =>
            if header.param_data_length = desc.get_param_size then
              handler header param_data
            else
              RDMResponder_BuildNack st header NR_FORMAT_ERROR
          | none =>
            RDMResponder_BuildNack st header NR_UNSUPPORTED_COMMAND_CLASS
        else
          (RDM_RESPONDER_NO_RESPONSE, [])
      else
        match desc.set_handler with
        | some handler => handler header param_data
        | none =>
          RDMResponder_BuildNack st header NR_UNSUPPORTED_COMMAND_CLASS
    | none => RDMResponder_BuildNack st header NR_UNKNOWN_PID

-- Discovery dispatch (rdm_responder.c)
-- ---------------------------------------------------------------------------

/-- RDMResponder_HandleDiscovery from rdm_responder.c: requests for a
sub device other than root are silently dropped; otherwise the three
discovery PIDs are routed and everything else yields no response. -/
def RDMResponder_HandleDiscovery (st : Responder) (header : RDMHeader)
    (param_data : List Nat) : Int × List Nat × Responder :=
  if header.sub_device ≠ SUBDEVICE_ROOT then
    (RDM_RESPONDER_NO_RESPONSE, [], st)
  else if header.param_id = PID_DISC_UNIQUE_BRANCH then
    let r := RDMResponder_HandleDUBRequest st param_data
      header.param_data_length
    (r.1, r.2, st)
  else if header.param_id = PID_DISC_MUTE then
    RDMResponder_SetMute st header
  else if header.param_id = PID_DISC_UN_MUTE then
    RDMResponder_SetUnMute st header
  else
    (RDM_RESPONDER_NO_RESPONSE, [], st)

/-- The root-only administrative PIDs of spec section 4.4 step 1. -/
def rootOnlyPids : List Nat :=
  [PID_DISC_UNIQUE_BRANCH, PID_DISC_MUTE, PID_DISC_UN_MUTE,
   PID_SUPPORTED_PARAMETERS, PID_PARAMETER_DESCRIPTION, PID_DEVICE_INFO,
   PID_SOFTWARE_VERSION_LABEL, PID_DMX_START_ADDRESS, PID_IDENTIFY_DEVICE]

/-- Modelled from the spec: the routing layer above
RDMResponder_DispatchPID (rdm_handler.c, not under src/).  Spec section
4.4 step 1: a request for a sub device other than root whose PID is a
root-only administrative PID is silently dropped; discovery commands go
to RDMResponder_HandleDiscovery (which is in the sources) and all other
commands to RDMResponder_DispatchPID. -/
def RDMResponder_HandleRequest (st : Responder) (header : RDMHeader)
    (param_data : List Nat) : Int × List Nat × Responder :=
  if header.sub_device ≠ SUBDEVICE_ROOT ∧ header.param_id ∈ rootOnlyPids then
    (RDM_RESPONDER_NO_RESPONSE, [], st)
  else if header.command_class = DISCOVERY_COMMAND then
    RDMResponder_HandleDiscovery st header param_data
  else
    let r := RDMResponder_DispatchPID st header param_data
    (r.1, r.2, st)

-- Factory defaults and the SET handlers that touch the flag
-- ---------------------------------------------------------------------------

/-- RDMResponder_ResetToFactoryDefaults from rdm_responder.c. -/
def RDMResponder_ResetToFactoryDefaults (st : Responder) : Responder :=
  let st2 := {st with
    dmx_start_address := INVALID_DMX_START_ADDRESS,
    sub_device_count := 0,
    current_personality := 1,
    queued_message_count := 0,
    is_muted := false,
    identify_on := false}
  let st3 :=
    match st2.defn with
    | none => st2
    | some definition =>
      let st4 := {st2 with
        device_label := RDMUtil_StringCopy RDM_DEFAULT_STRING_SIZE
          definition.default_device_label RDM_DEFAULT_STRING_SIZE}
      if definition.personality_count ≠ 0 then
        {st4 with current_personality := 1, dmx_start_address := 1}
      else st4
  {st3 with using_factory_defaults := true}

/-- RDMResponder_SetDeviceLabel from rdm_responder.c: a parameter longer
than 32 bytes is a format error; otherwise the label is copied and the
factory defaults flag is cleared unconditionally, then a SET ACK is
built. -/
def RDMResponder_SetDeviceLabel (st : Responder) (header : RDMHeader)
    (param_data : List Nat) : Int × List Nat × Responder :=
  if header.param_data_length > RDM_DEFAULT_STRING_SIZE then
    let r := RDMResponder_BuildNack st header NR_FORMAT_ERROR
    (r.1, r.2, st)
  else
    let st2 := {st with
      device_label := RDMUtil_StringCopy RDM_DEFAULT_STRING_SIZE param_data
        header.param_data_length,
      using_factory_defaults := false}
    let r := RDMResponder_BuildSetAck st2 header
    (r.1, r.2, st2)

/-- RDMResponder_SetDMXPersonality from rdm_responder.c: the single-byte
parameter must be between 1 and the personality count; the factory
defaults flag is cleared only when the value changes. -/
def RDMResponder_SetDMXPersonality (st : Responder) (header : RDMHeader)
    (param_data : List Nat) : Int × List Nat × Responder :=
  if header.param_data_length ≠ 1 then
    let r := RDMResponder_BuildNack st header NR_FORMAT_ERROR
    (r.1, r.2, st)
  else
    let new_personality := param_data.getD 0 0
    let personality_count :=
      match st.defn with
      | none => 0
      | some definition => definition.personality_count
    if new_personality = 0 ∨ new_personality > personality_count then
      let r := RDMResponder_BuildNack st header NR_DATA_OUT_OF_RANGE
      (r.1, r.2, st)
    else
      let st2 := {st with
        using_factory_defaults :=
          if st.current_personality ≠ new_personality then false
          else st.using_factory_defaults,
        current_personality := new_personality}
      let r := RDMResponder_BuildSetAck st2 header
      (r.1, r.2, st2)

/-- RDMResponder_SetDMXStartAddress from rdm_responder.c: the two-byte
big-endian parameter must be between 1 and 512; the factory defaults
flag is cleared only when the address changes. -/
def RDMResponder_SetDMXStartAddress (st : Responder) (header : RDMHeader)
    (param_data : List Nat) : Int × List Nat × Responder :=
  if header.param_data_length ≠ 2 then
    let r := RDMResponder_BuildNack st header NR_FORMAT_ERROR
    (r.1, r.2, st)
  else
    let address := JoinShort (param_data.getD 0 0) (param_data.getD 1 0)
    if address = 0 ∨ address > MAX_DMX_START_ADDRESS then
      let r := RDMResponder_BuildNack st header NR_DATA_OUT_OF_RANGE
      (r.1, r.2, st)
    else
      let st2 := {st with
        using_factory_defaults :=
          if st.dmx_start_address ≠ address then false
          else st.using_factory_defaults,
        dmx_start_address := address}
      let r := RDMResponder_BuildSetAck st2 header
      (r.1, r.2, st2)

/-- RDMResponder_GenericSetBool from rdm_responder.c, specialised to an
explicit current value: returns the reply and the (possibly updated)
boolean. -/
def RDMResponder_GenericSetBool (st : Responder) (header : RDMHeader)
    (param_data : List Nat) (value : Bool) : Int × List Nat × Bool :=
  if header.param_data_length ≠ 1 then
    let r := RDMResponder_BuildNack st header NR_FORMAT_ERROR
    (r.1, r.2, value)
  else if param_data.getD 0 0 = 0 then
    let r := RDMResponder_BuildSetAck st header
    (r.1, r.2, false)
  else if param_data.getD 0 0 = 1 then
    let r := RDMResponder_BuildSetAck st header
    (r.1, r.2, true)
  else
    let r := RDMResponder_BuildNack st header NR_DATA_OUT_OF_RANGE
    (r.1, r.2, value)

/-- RDMResponder_SetIdentifyDevice from rdm_responder.c: a generic bool
SET of identify_on; when the stored value actually changed the factory
defaults flag is cleared (the identify LED and timer writes are
hardware effects outside the model). -/
def RDMResponder_SetIdentifyDevice (st : Responder) (header : RDMHeader)
    (param_data : List Nat) : Int × List Nat × Responder :=
  let previous_identify := st.identify_on
  let r := RDMResponder_GenericSetBool st header param_data st.identify_on
  let st2 := {st with identify_on := r.2.2}
  if st2.identify_on = previous_identify then
    (r.1, r.2.1, st2)
  else
    (r.1, r.2.1, {st2 with using_factory_defaults := false})

-- Concrete fixtures for witnesses and counterexamples
-- ---------------------------------------------------------------------------

/-- A sample descriptor row with a GET handler of parameter size 0. -/
def exDescriptor : PIDDescriptor :=
  { pid := PID_DMX_START_ADDRESS,
    get_handler := some (fun _ _ => (42, [7])),
    set_handler := none,
    get_param_size := 0 }

/-- A sample responder definition. -/
def exDef : ResponderDefinition :=
  { descriptors := [exDescriptor],
    personality_count := 2,
    default_device_label := [74, 97] }

/-- A sample responder state with UID 7a70:00000001. -/
def exSt : Responder :=
  { uid := [0x7a, 0x70, 0, 0, 0, 1],
    defn := some exDef,
    device_label := [65],
    is_muted := false,
    identify_on := false,
    using_factory_defaults := true,
    is_subdevice := false,
    is_managed_proxy := false,
    is_proxied_device := false,
    current_personality := 1,
    dmx_start_address := 1,
    queued_message_count := 0,
    sub_device_count := 0 }

/-- The all-ones broadcast destination UID. -/
def exBroadcastDest : List Nat := [0xff, 0xff, 0xff, 0xff, 0xff, 0xff]

/-- A unicast destination UID equal to the sample responder UID. -/
def exUnicastDest : List Nat := [0x7a, 0x70, 0, 0, 0, 1]

/-- A sample controller source UID. -/
def exSrc : List Nat := [0, 1, 0, 0, 0, 2]

/-- Build a sample request header. -/
def mkHeader (dest : List Nat) (cc pid pdl sub : Nat) : RDMHeader :=
  { start_code := RDM_START_CODE,
    sub_start_code := SUB_START_CODE,
    message_length := RDM_HEADER_SIZE + pdl,
    dest_uid := dest,
    src_uid := exSrc,
    transaction_number := 3,
    port_id := 1,
    message_count := 0,
    sub_device := sub,
    command_class := cc,
    param_id := pid,
    param_data_length := pdl }

/-- A GET request addressed to a unicast UID that is not the responder
UID. -/
def exGetHeader : RDMHeader :=
  mkHeader [9, 9, 9, 9, 9, 1] GET_COMMAND PID_DMX_START_ADDRESS 0 0

/-- A broadcast DISC_MUTE request. -/
def exBroadcastMuteHeader : RDMHeader :=
  mkHeader exBroadcastDest DISCOVERY_COMMAND PID_DISC_MUTE 0 0

/-- A unicast SET DMX_START_ADDRESS request with two parameter bytes. -/
def exSetAddrHeader : RDMHeader :=
  mkHeader exUnicastDest SET_COMMAND PID_DMX_START_ADDRESS 2 0

/-- A unicast SET DEVICE_LABEL request with one parameter byte. -/
def exSetLabelHeader : RDMHeader :=
  mkHeader exUnicastDest SET_COMMAND 0x0082 1 0

/-- A GET DMX_START_ADDRESS request for sub device one. -/
def exSubdeviceHeader : RDMHeader :=
  mkHeader exUnicastDest GET_COMMAND PID_DMX_START_ADDRESS 0 1

/-- A DUB parameter payload, lower bound 7a70:00000000 and upper bound
7a70:00000002 (the spec DUB hit scenario). -/
def exDubParam : List Nat :=
  [0x7a, 0x70, 0, 0, 0, 0, 0x7a, 0x70, 0, 0, 0, 2]

-- Theorems
-- ---------------------------------------------------------------------------

/-- C5 counterexample: the claim states that CoarseTimer_HasElapsed
returns true if and only if the wraparound difference now - start
strictly exceeds the duration, including for duration zero.  At
now = start = 5 and duration 0 the code returns true although the
difference 0 is not strictly greater than 0. -/
theorem coarse_timer_zero_duration_cex :
    CoarseTimer_HasElapsed 5 5 0 = true ∧ ¬ (sub32 5 5 > 0) := by
  constructor
  · rfl
  · decide

/-- C5 amended: for a nonzero duration, CoarseTimer_HasElapsed start
plus elapsed ticks e (reduced mod 2^32, so the statement covers a full
wrap of the tick counter) is true exactly when e strictly exceeds the
duration; a zero duration always reads as elapsed. -/
theorem coarse_timer_has_elapsed_wrap (start e duration : Nat)
    (he : e < 4294967296) (hd : duration < 4294967296) :
    (CoarseTimer_HasElapsed ((start + e) % 4294967296) start duration = true)
      ↔ (duration = 0 ∨ e > duration) := by
  unfold CoarseTimer_HasElapsed
  by_cases h0 : duration = 0
  · simp [h0]
  · have hsub : sub32 ((start + e) % 4294967296) start = e := by
      unfold sub32
      omega
    simp [h0, hsub]

/-- C5 witness: start just below the 32-bit wrap, 10 elapsed ticks
crossing the wrap, duration 3. -/
theorem coarse_timer_has_elapsed_wrap_witness :
    CoarseTimer_HasElapsed 4 4294967290 3 = true := by
  have h := coarse_timer_has_elapsed_wrap 4294967290 10 3
    (by norm_num) (by norm_num)
  have harg : (4294967290 + 10) % 4294967296 = 4 := by norm_num
  rw [harg] at h
  exact h.mpr (Or.inr (by norm_num))

/-- C9: RDMResponder_BuildNack returns no response and stages no bytes
whenever the request destination UID is not unicast, so broadcast
requests never elicit a NACK frame. -/
theorem nack_suppressed_non_unicast (st : Responder) (header : RDMHeader)
    (reason : Nat) (h : RDMUtil_IsUnicast header.dest_uid = false) :
    RDMResponder_BuildNack st header reason =
      (RDM_RESPONDER_NO_RESPONSE, []) := by
  unfold RDMResponder_BuildNack
  simp [h]

/-- C9 witness: an unknown-PID NACK for a broadcast destination is
suppressed. -/
theorem nack_suppressed_non_unicast_witness :
    RDMUtil_IsUnicast exBroadcastMuteHeader.dest_uid = false ∧
    RDMResponder_BuildNack exSt exBroadcastMuteHeader NR_UNKNOWN_PID =
      (RDM_RESPONDER_NO_RESPONSE, []) := by
  refine ⟨by decide, ?_⟩
  exact nack_suppressed_non_unicast exSt exBroadcastMuteHeader NR_UNKNOWN_PID
    (by decide)

/-- C10: a DISC_MUTE (DISC_UN_MUTE) request with empty parameter data
sets (clears) the muted flag even for a non-unicast destination, where
only the reply is suppressed; nonempty parameter data yields no
response and leaves the state untouched. -/
theorem mute_unmute_state_spec (st : Responder) (header : RDMHeader) :
    (header.param_data_length = 0 →
      (RDMResponder_SetMute st header).2.2 = {st with is_muted := true} ∧
      (RDMResponder_SetUnMute st header).2.2 = {st with is_muted := false} ∧
      (RDMUtil_IsUnicast header.dest_uid = false →
        RDMResponder_SetMute st header =
          (RDM_RESPONDER_NO_RESPONSE, [], {st with is_muted := true}) ∧
        RDMResponder_SetUnMute st header =
          (RDM_RESPONDER_NO_RESPONSE, [], {st with is_muted := false}))) ∧
    (header.param_data_length ≠ 0 →
      RDMResponder_SetMute st header = (RDM_RESPONDER_NO_RESPONSE, [], st) ∧
      RDMResponder_SetUnMute st header =
        (RDM_RESPONDER_NO_RESPONSE, [], st)) := by
  unfold RDMResponder_SetMute RDMResponder_SetUnMute
  constructor
  · intro h0
    have hcond : ¬ (header.param_data_length ≠ 0) := by simp [h0]
    simp only [if_neg hcond]
    refine ⟨?_, ?_, ?_⟩
    · split <;> rfl
    · split <;> rfl
    · intro hb
      simp [hb]
  · intro hn
    simp [hn]

/-- C10 witness: a broadcast DISC_MUTE with empty parameter data mutes
the sample responder while producing no reply. -/
theorem mute_unmute_state_spec_witness :
    RDMResponder_SetMute exSt exBroadcastMuteHeader =
      (RDM_RESPONDER_NO_RESPONSE, [], {exSt with is_muted := true}) := by
  have h := (mute_unmute_state_spec exSt exBroadcastMuteHeader).1 (by decide)
  exact (h.2.2 (by decide)).1

/-- The DUB response frame always holds exactly 24 bytes. -/
theorem dubResponseBytes_length (uid : List Nat) :
    (dubResponseBytes uid).length = DUB_RESPONSE_LENGTH := by
  simp [dubResponseBytes, dubEncodedUid, DUB_RESPONSE_LENGTH]

/-- C6: SET DMX_START_ADDRESS with a two-byte big-endian value between 1
and 512 stores the value and replies through RDMResponder_BuildSetAck;
a value of 0 or above 512 replies through RDMResponder_BuildNack with
NR_DATA_OUT_OF_RANGE and leaves the state unchanged; any other
parameter data length replies through RDMResponder_BuildNack with
NR_FORMAT_ERROR and leaves the state unchanged. -/
theorem set_dmx_start_address_spec (st : Responder) (header : RDMHeader)
    (param_data : List Nat) :
    (header.param_data_length ≠ 2 →
      RDMResponder_SetDMXStartAddress st header param_data =
        ((RDMResponder_BuildNack st header NR_FORMAT_ERROR).1,
         (RDMResponder_BuildNack st header NR_FORMAT_ERROR).2, st)) ∧
    (header.param_data_length = 2 →
      (JoinShort (param_data.getD 0 0) (param_data.getD 1 0) = 0 ∨
       JoinShort (param_data.getD 0 0) (param_data.getD 1 0) >
         MAX_DMX_START_ADDRESS →
        RDMResponder_SetDMXStartAddress st header param_data =
          ((RDMResponder_BuildNack st header NR_DATA_OUT_OF_RANGE).1,
           (RDMResponder_BuildNack st header NR_DATA_OUT_OF_RANGE).2, st)) ∧
      (JoinShort (param_data.getD 0 0) (param_data.getD 1 0) ≠ 0 →
       JoinShort (param_data.getD 0 0) (param_data.getD 1 0) ≤
         MAX_DMX_START_ADDRESS →
        (RDMResponder_SetDMXStartAddress st header
            param_data).2.2.dmx_start_address =
          JoinShort (param_data.getD 0 0) (param_data.getD 1 0) ∧
        ((RDMResponder_SetDMXStartAddress st header param_data).1,
         (RDMResponder_SetDMXStartAddress st header param_data).2.1) =
          RDMResponder_BuildSetAck
            (RDMResponder_SetDMXStartAddress st header param_data).2.2
            header)) := by
  unfold RDMResponder_SetDMXStartAddress
  constructor
  · intro h
    simp [h]
  · intro h2
    have hne : ¬ (header.param_data_length ≠ 2) := by simp [h2]
    simp only [if_neg hne]
    constructor
    · intro hout
      rw [if_pos hout]
    · intro hnz hle
      have hcond : ¬ (JoinShort (param_data.getD 0 0) (param_data.getD 1 0) = 0 ∨
          JoinShort (param_data.getD 0 0) (param_data.getD 1 0) >
            MAX_DMX_START_ADDRESS) := by
        push_neg
        exact ⟨hnz, by omega⟩
      rw [if_neg hcond]
      exact ⟨rfl, rfl⟩

/-- C6 witness: the spec scenario, SET DMX_START_ADDRESS to 513 (bytes
02 01) is NACKed with NR_DATA_OUT_OF_RANGE and the address is
unchanged. -/
theorem set_dmx_start_address_spec_witness :
    RDMResponder_SetDMXStartAddress exSt exSetAddrHeader [2, 1] =
      ((RDMResponder_BuildNack exSt exSetAddrHeader NR_DATA_OUT_OF_RANGE).1,
       (RDMResponder_BuildNack exSt exSetAddrHeader NR_DATA_OUT_OF_RANGE).2,
       exSt) :=
  ((set_dmx_start_address_spec exSt exSetAddrHeader [2, 1]).2 rfl).1
    (Or.inr (by decide))

/-- C1: RDMResponder_HandleDUBRequest stages a 24-byte DUB reply and
returns minus the DUB response length exactly when the responder is
not muted, the parameter data length is 12 and the responder UID lies
between the lower and upper bound UIDs in the lexicographic big-endian
order; in every other case it returns no response and stages no
bytes. -/
theorem dub_response_iff (st : Responder) (param_data : List Nat)
    (pdl : Nat) :
    (((RDMResponder_HandleDUBRequest st param_data pdl).1 =
        -(Int.ofNat DUB_RESPONSE_LENGTH) ∧
      (RDMResponder_HandleDUBRequest st param_data pdl).2.length =
        DUB_RESPONSE_LENGTH)
      ↔ (st.is_muted = false ∧ pdl = 2 * UID_LENGTH ∧
         RDMUtil_UIDCompare (param_data.take UID_LENGTH) st.uid ≤ 0 ∧
         RDMUtil_UIDCompare st.uid
           ((param_data.drop UID_LENGTH).take UID_LENGTH) ≤ 0)) ∧
    (¬ (st.is_muted = false ∧ pdl = 2 * UID_LENGTH ∧
        RDMUtil_UIDCompare (param_data.take UID_LENGTH) st.uid ≤ 0 ∧
        RDMUtil_UIDCompare st.uid
          ((param_data.drop UID_LENGTH).take UID_LENGTH) ≤ 0) →
      RDMResponder_HandleDUBRequest st param_data pdl =
        (RDM_RESPONDER_NO_RESPONSE, [])) := by
  have hres : (st.is_muted = false ∧ pdl = 2 * UID_LENGTH ∧
      RDMUtil_UIDCompare (param_data.take UID_LENGTH) st.uid ≤ 0 ∧
      RDMUtil_UIDCompare st.uid
        ((param_data.drop UID_LENGTH).take UID_LENGTH) ≤ 0 →
        RDMResponder_HandleDUBRequest st param_data pdl =
          (-(Int.ofNat DUB_RESPONSE_LENGTH), dubResponseBytes st.uid)) ∧
      (¬ (st.is_muted = false ∧ pdl = 2 * UID_LENGTH ∧
        RDMUtil_UIDCompare (param_data.take UID_LENGTH) st.uid ≤ 0 ∧
        RDMUtil_UIDCompare st.uid
          ((param_data.drop UID_LENGTH).take UID_LENGTH) ≤ 0) →
        RDMResponder_HandleDUBRequest st param_data pdl =
          (RDM_RESPONDER_NO_RESPONSE, [])) := by
    constructor
    · rintro ⟨h1, h2, h3, h4⟩
      unfold RDMResponder_HandleDUBRequest
      rw [if_neg (by simp [h1, h2]), if_neg (by simp [h3, h4])]
    · intro hneg
      unfold RDMResponder_HandleDUBRequest
      by_cases hm : st.is_muted
      · rw [if_pos (by simp [hm])]
      · by_cases hl : pdl = 2 * UID_LENGTH
        · rw [if_neg (by simp [hm, hl])]
          have : ¬ (RDMUtil_UIDCompare (param_data.take UID_LENGTH) st.uid ≤ 0 ∧
              RDMUtil_UIDCompare st.uid
                ((param_data.drop UID_LENGTH).take UID_LENGTH) ≤ 0) := by
            intro hc
            exact hneg ⟨by simp [hm], hl, hc.1, hc.2⟩
          rw [if_pos this]
        · rw [if_pos (by simp [hl])]
  constructor
  · constructor
    · intro hlen
      by_cases hc : st.is_muted = false ∧ pdl = 2 * UID_LENGTH ∧
          RDMUtil_UIDCompare (param_data.take UID_LENGTH) st.uid ≤ 0 ∧
          RDMUtil_UIDCompare st.uid
            ((param_data.drop UID_LENGTH).take UID_LENGTH) ≤ 0
      · exact hc
      · exfalso
        rw [hres.2 hc] at hlen
        have h0 : (RDM_RESPONDER_NO_RESPONSE, ([] : List Nat)).1 =
            -(Int.ofNat DUB_RESPONSE_LENGTH) := hlen.1
        simp [RDM_RESPONDER_NO_RESPONSE, DUB_RESPONSE_LENGTH] at h0
    · intro hc
      rw [hres.1 hc]
      exact ⟨rfl, dubResponseBytes_length st.uid⟩
  · exact hres.2

/-- C1 witness: the spec DUB hit scenario, UID 7a70:00000001 within
bounds 7a70:00000000 .. 7a70:00000002, unmuted, payload length 12. -/
theorem dub_response_iff_witness :
    (RDMResponder_HandleDUBRequest exSt exDubParam 12).1 =
      -(Int.ofNat DUB_RESPONSE_LENGTH) ∧
    (RDMResponder_HandleDUBRequest exSt exDubParam 12).2.length =
      DUB_RESPONSE_LENGTH :=
  (dub_response_iff exSt exDubParam 12).1.mpr
    ⟨rfl, rfl, by decide, by decide⟩

/-- Masking out complementary fill patterns recovers the original byte:
or-ing with 0xaa and with 0x55 then and-ing the results is the
identity, because 0xaa and 0x55 share no bits. -/
theorem lor_land_mask (x : Nat) : (x ||| 170) &&& (x ||| 85) = x := by
  apply Nat.eq_of_testBit_eq
  intro i
  rw [Nat.testBit_and, Nat.testBit_or, Nat.testBit_or]
  have h : (Nat.testBit 170 i && Nat.testBit 85 i) = false := by
    rw [← Nat.testBit_and, show (170 &&& 85) = 0 from by decide,
      Nat.zero_testBit]
  cases hx : x.testBit i <;> simp [hx, h]

/-- Recombining the high and low bytes of a 16-bit value big-endian is
the identity. -/
theorem msb_lsb_recombine (c : Nat) (h : c < 65536) :
    ((c >>> 8) % 256) * 256 + c % 256 = c := by
  rw [Nat.shiftRight_eq_div_pow]
  omega

/-- A list of length six is a six-element literal. -/
theorem exists_six (l : List Nat) (h : l.length = 6) :
    ∃ a b c d e f : Nat, l = [a, b, c, d, e, f] := by
  rcases l with _ | ⟨a, l⟩
  · simp at h
  rcases l with _ | ⟨b, l⟩
  · simp at h
  rcases l with _ | ⟨c, l⟩
  · simp at h
  rcases l with _ | ⟨d, l⟩
  · simp at h
  rcases l with _ | ⟨e, l⟩
  · simp at h
  rcases l with _ | ⟨f, l⟩
  · simp at h
  rcases l with _ | ⟨g, l⟩
  · exact ⟨a, b, c, d, e, f, rfl⟩
  · simp at h

/-- RDMResponder_HandleDUBRequest either stages nothing or stages
exactly the DUB response bytes for the responder UID. -/
theorem dub_result_cases (st : Responder) (param_data : List Nat)
    (pdl : Nat) :
    RDMResponder_HandleDUBRequest st param_data pdl =
      (RDM_RESPONDER_NO_RESPONSE, []) ∨
    RDMResponder_HandleDUBRequest st param_data pdl =
      (-(Int.ofNat DUB_RESPONSE_LENGTH), dubResponseBytes st.uid) := by
  unfold RDMResponder_HandleDUBRequest
  split
  · exact Or.inl rfl
  · split
    · exact Or.inl rfl
    · exact Or.inr rfl

/-- Decoding the UID byte pairs of a DUB response recovers the UID. -/
theorem dub_uid_decode (a b c d e f : Nat) :
    dubDecodeUid (dubResponseBytes [a, b, c, d, e, f]) =
      [a, b, c, d, e, f] := by
  show [(a ||| 170) &&& (a ||| 85), (b ||| 170) &&& (b ||| 85),
        (c ||| 170) &&& (c ||| 85), (d ||| 170) &&& (d ||| 85),
        (e ||| 170) &&& (e ||| 85), (f ||| 170) &&& (f ||| 85)] =
      [a, b, c, d, e, f]
  simp [lor_land_mask]

/-- The checksum pairs of a DUB response decode to the additive 16-bit
checksum of its 12 encoded UID bytes. -/
theorem dub_checksum_decode (uid : List Nat) :
    dubChecksumMatches (dubResponseBytes uid) := by
  have hdrop : ((dubResponseBytes uid).drop 8).take 12 = dubEncodedUid uid :=
    rfl
  have h20 : (dubResponseBytes uid).getD 20 0 =
      ShortMSB ((dubEncodedUid uid).sum % 65536) ||| 170 := rfl
  have h21 : (dubResponseBytes uid).getD 21 0 =
      ShortMSB ((dubEncodedUid uid).sum % 65536) ||| 85 := rfl
  have h22 : (dubResponseBytes uid).getD 22 0 =
      ShortLSB ((dubEncodedUid uid).sum % 65536) ||| 170 := rfl
  have h23 : (dubResponseBytes uid).getD 23 0 =
      ShortLSB ((dubEncodedUid uid).sum % 65536) ||| 85 := rfl
  unfold dubChecksumMatches dubDecodeChecksum
  rw [hdrop, h20, h21, h22, h23, lor_land_mask, lor_land_mask]
  unfold ShortMSB ShortLSB
  exact msb_lsb_recombine _ (Nat.mod_lt _ (by norm_num))

/-- C2: whenever RDMResponder_HandleDUBRequest stages a reply, the bytes
are exactly the DUB encoding of the responder UID (seven 0xfe bytes,
the 0xaa delimiter, each UID byte expanded to the pair or-0xaa,
or-0x55 big-endian, and the additive 16-bit checksum of the 12
expanded bytes expanded likewise, high pair before low pair), and
decoding by masking out the fill recovers the UID and a matching
checksum. -/
theorem dub_encoding_roundtrip (st : Responder) (param_data : List Nat)
    (pdl : Nat) (hlen : st.uid.length = 6)
    (hemit : (RDMResponder_HandleDUBRequest st param_data pdl).2 ≠ []) :
    (RDMResponder_HandleDUBRequest st param_data pdl).2 =
      dubResponseBytes st.uid ∧
    dubDecodeUid ((RDMResponder_HandleDUBRequest st param_data pdl).2) =
      st.uid ∧
    dubChecksumMatches ((RDMResponder_HandleDUBRequest st param_data pdl).2)
    := by
  have h1 : (RDMResponder_HandleDUBRequest st param_data pdl).2 =
      dubResponseBytes st.uid := by
    rcases dub_result_cases st param_data pdl with h | h
    · rw [h] at hemit
      simp at hemit
    · rw [h]
  obtain ⟨a, b, c, d, e, f, huid⟩ := exists_six st.uid hlen
  refine ⟨h1, ?_, ?_⟩
  · rw [h1, huid]
    exact dub_uid_decode a b c d e f
  · rw [h1]
    exact dub_checksum_decode st.uid

/-- C2 witness: the DUB hit scenario stages a reply whose decoded UID is
the responder UID. -/
theorem dub_encoding_roundtrip_witness :
    dubDecodeUid ((RDMResponder_HandleDUBRequest exSt exDubParam 12).2) =
      exSt.uid :=
  (dub_encoding_roundtrip exSt exDubParam 12 rfl (by decide)).2.1

/-- C3: RDMResponder_DispatchPID on a GET request whose PID is in the
descriptor table returns no response for a non-unicast destination,
builds an unsupported-command-class NACK when the descriptor has no
GET handler, builds a format-error NACK when the parameter data length
differs from the descriptor size, and otherwise returns the GET
handler result; a PID absent from the table is NACKed with
NR_UNKNOWN_PID.  The NACKs are built through RDMResponder_BuildNack,
which suppresses the frame for non-unicast destinations. -/
theorem dispatch_get_spec (st : Responder)
    (definition : ResponderDefinition) (header : RDMHeader)
    (param_data : List Nat) (hdef : st.defn = some definition) :
    (∀ desc,
      definition.descriptors.find? (fun d2 => d2.pid == header.param_id) =
        some desc →
      header.command_class = GET_COMMAND →
      ((RDMUtil_IsUnicast header.dest_uid = false →
         RDMResponder_DispatchPID st header param_data =
           (RDM_RESPONDER_NO_RESPONSE, [])) ∧
       (RDMUtil_IsUnicast header.dest_uid = true →
         (desc.get_handler = none →
           RDMResponder_DispatchPID st header param_data =
             RDMResponder_BuildNack st header
               NR_UNSUPPORTED_COMMAND_CLASS) ∧
         (∀ handler, desc.get_handler = some handler →
           (header.param_data_length ≠ desc.get_param_size →
             RDMResponder_DispatchPID st header param_data =
               RDMResponder_BuildNack st header NR_FORMAT_ERROR) ∧
           (header.param_data_length = desc.get_param_size →
             RDMResponder_DispatchPID st header param_data =
               handler header param_data))))) ∧
    (definition.descriptors.find? (fun d2 => d2.pid == header.param_id) =
        none →
      RDMResponder_DispatchPID st header param_data =
        RDMResponder_BuildNack st header NR_UNKNOWN_PID) := by
  unfold RDMResponder_DispatchPID
  simp only [hdef]
  constructor
  · intro desc hfind hcc
    simp only [hfind, hcc, if_pos rfl]
    constructor
    · intro hb
      simp [hb]
    · intro hu
      constructor
      · intro hnone
        simp [hnone, hu]
      · intro handler hsome
        simp only [hsome, hu]
        constructor
        · intro hne
          simp [hne]
        · intro heq
          simp [heq]
  · intro hnone
    simp [hnone]

/-- C3 witness: a GET for the sample descriptor PID with matching
parameter size invokes the GET handler. -/
theorem dispatch_get_spec_witness :
    RDMResponder_DispatchPID exSt exGetHeader [] = (42, [7]) := by
  have h := ((dispatch_get_spec exSt exDef exGetHeader [] rfl).1
    exDescriptor rfl rfl).2 (by decide)
  exact (h.2 (fun _ _ => (42, [7])) rfl).2 rfl

/-- C8: a request for a sub device other than root whose PID is one of
the root-only administrative PIDs is silently dropped with no reply
frame, both by the spec-modelled routing layer and (for the discovery
command class, which covers the DISC PIDs) by
RDMResponder_HandleDiscovery from the sources. -/
theorem subdevice_root_only_drop (st : Responder) (header : RDMHeader)
    (param_data : List Nat) (hsub : header.sub_device ≠ SUBDEVICE_ROOT)
    (hpid : header.param_id ∈ rootOnlyPids) :
    RDMResponder_HandleRequest st header param_data =
      (RDM_RESPONDER_NO_RESPONSE, [], st) ∧
    RDMResponder_HandleDiscovery st header param_data =
      (RDM_RESPONDER_NO_RESPONSE, [], st) := by
  constructor
  · unfold RDMResponder_HandleRequest
    rw [if_pos ⟨hsub, hpid⟩]
  · unfold RDMResponder_HandleDiscovery
    rw [if_pos hsub]

/-- C8 witness: the spec scenario, GET DMX_START_ADDRESS for sub device
one is dropped with no NACK and no ACK. -/
theorem subdevice_root_only_drop_witness :
    RDMResponder_HandleRequest exSt exSubdeviceHeader [] =
      (RDM_RESPONDER_NO_RESPONSE, [], exSt) :=
  (subdevice_root_only_drop exSt exSubdeviceHeader [] (by decide)
    (by decide)).1

/-- RDMUtil_AppendChecksum on a frame whose declared length byte equals
its length appends the big-endian 16-bit additive checksum of the
whole frame and reports the frame size plus two. -/
theorem appendChecksum_spec (pre : List Nat)
    (hpre : pre.getD 2 0 = pre.length) :
    RDMUtil_AppendChecksum pre =
      (Int.ofNat (pre.length + 2),
       pre ++ PushUInt16 (pre.sum % 65536)) := by
  unfold RDMUtil_AppendChecksum
  simp only [hpre, List.take_length]

/-- C4 counterexample: the claim states that every reply frame built by
RDMResponder_AddHeaderAndChecksum carries the responder own UID as its
source UID.  The code copies the request destination UID instead: for
a unicast GET request addressed to 0909:09090901 the sample responder
(UID 7a70:00000001) builds a reply whose source UID field is
0909:09090901. -/
theorem reply_src_uid_cex :
    (RDMResponder_AddHeaderAndChecksum exSt exGetHeader ACK []).2 ≠ [] ∧
    (((RDMResponder_AddHeaderAndChecksum exSt exGetHeader ACK
        []).2.drop 9).take 6) ≠ exSt.uid := by
  decide

/-- C4 amended: every reply frame built by
RDMResponder_AddHeaderAndChecksum (that is, whenever the request
command class is a discovery, get or set command) has the request
source UID as its destination UID, the request destination UID as its
source UID (which is the responder own UID whenever the request was
addressed to the responder), echoes the transaction number and the sub
device, carries the current queued message count, maps the command
class to the matching response class, appends the big-endian 16-bit
additive checksum as the last two bytes and returns the full frame
size. -/
theorem reply_header_fields (st : Responder) (header : RDMHeader)
    (response_type : Nat) (param_data : List Nat) (rcc : Nat)
    (hsrc : header.src_uid.length = 6) (hdest : header.dest_uid.length = 6)
    (hcc : responseCommandClass header.command_class = some rcc)
    (hpd : param_data.length ≤ 231) :
    (((RDMResponder_AddHeaderAndChecksum st header response_type
        param_data).2.drop 3).take 6 = header.src_uid) ∧
    (((RDMResponder_AddHeaderAndChecksum st header response_type
        param_data).2.drop 9).take 6 = header.dest_uid) ∧
    ((RDMResponder_AddHeaderAndChecksum st header response_type
        param_data).2.getD 15 0 = header.transaction_number % 256) ∧
    ((RDMResponder_AddHeaderAndChecksum st header response_type
        param_data).2.getD 17 0 = st.queued_message_count % 256) ∧
    (((RDMResponder_AddHeaderAndChecksum st header response_type
        param_data).2.drop 18).take 2 = PushUInt16 header.sub_device) ∧
    ((RDMResponder_AddHeaderAndChecksum st header response_type
        param_data).2.getD 20 0 = rcc) ∧
    (responseCommandClass DISCOVERY_COMMAND =
      some DISCOVERY_COMMAND_RESPONSE ∧
     responseCommandClass GET_COMMAND = some GET_COMMAND_RESPONSE ∧
     responseCommandClass SET_COMMAND = some SET_COMMAND_RESPONSE) ∧
    ((RDMResponder_AddHeaderAndChecksum st header response_type
        param_data).2 =
      (RDMResponder_AddHeaderAndChecksum st header response_type
        param_data).2.take (RDM_HEADER_SIZE + param_data.length) ++
      PushUInt16
        (((RDMResponder_AddHeaderAndChecksum st header response_type
            param_data).2.take
              (RDM_HEADER_SIZE + param_data.length)).sum % 65536)) ∧
    ((RDMResponder_AddHeaderAndChecksum st header response_type
        param_data).1 =
      Int.ofNat (RDM_HEADER_SIZE + param_data.length + 2)) := by
  obtain ⟨s1, s2, s3, s4, s5, s6, hs⟩ := exists_six header.src_uid hsrc
  obtain ⟨d1, d2, d3, d4, d5, d6, hd2⟩ := exists_six header.dest_uid hdest
  set BODY : List Nat :=
    [RDM_START_CODE, SUB_START_CODE,
     (RDM_HEADER_SIZE + param_data.length) % 256,
     s1, s2, s3, s4, s5, s6, d1, d2, d3, d4, d5, d6,
     header.transaction_number % 256, response_type % 256,
     st.queued_message_count % 256,
     ShortMSB header.sub_device, ShortLSB header.sub_device, rcc,
     ShortMSB header.param_id, ShortLSB header.param_id,
     param_data.length % 256] ++ param_data with hB
  have hblen : BODY.length = RDM_HEADER_SIZE + param_data.length := by
    rw [hB]
    simp [RDM_HEADER_SIZE, List.length_append]
    omega
  have hpre : BODY.getD 2 0 = BODY.length := by
    rw [hblen]
    exact Nat.mod_eq_of_lt (by unfold RDM_HEADER_SIZE; omega)
  have hmain : RDMResponder_AddHeaderAndChecksum st header response_type
      param_data =
      (Int.ofNat (BODY.length + 2),
       BODY ++ PushUInt16 (BODY.sum % 65536)) := by
    unfold RDMResponder_AddHeaderAndChecksum
    simp only [hcc]
    rw [hs, hd2]
    exact appendChecksum_spec BODY hpre
  have htake : (BODY ++ PushUInt16 (BODY.sum % 65536)).take
      (RDM_HEADER_SIZE + param_data.length) = BODY := by
    rw [← hblen]
    exact List.take_left BODY _
  refine ⟨?_, ?_, ?_, ?_, ?_, ?_, ⟨rfl, rfl, rfl⟩, ?_, ?_⟩
  · rw [hmain, hs, hB]
    rfl
  · rw [hmain, hd2, hB]
    rfl
  · rw [hmain, hB]
    rfl
  · rw [hmain, hB]
    rfl
  · rw [hmain, hB]
    rfl
  · rw [hmain, hB]
    rfl
  · rw [hmain]
    simp only [htake]
  · rw [hmain, hblen]

/-- C4 witness: the reply to the sample GET request carries the request
source UID in its destination field. -/
theorem reply_header_fields_witness :
    ((RDMResponder_AddHeaderAndChecksum exSt exGetHeader ACK
      []).2.drop 3).take 6 = exGetHeader.src_uid :=
  (reply_header_fields exSt exGetHeader ACK [] GET_COMMAND_RESPONSE rfl rfl
    (by decide) (by norm_num)).1

/-- C7 counterexample: the claim states that a successful SET of the
device label to its current value leaves using_factory_defaults
unchanged.  RDMResponder_SetDeviceLabel clears the flag
unconditionally: setting the sample label to its current single byte
0x41 succeeds (positive reply code), stores the same label, yet flips
the flag from true to false. -/
theorem device_label_same_value_cex :
    (RDMResponder_SetDeviceLabel exSt exSetLabelHeader [65]).1 > 0 ∧
    (RDMResponder_SetDeviceLabel exSt exSetLabelHeader
      [65]).2.2.device_label = exSt.device_label ∧
    exSt.using_factory_defaults = true ∧
    (RDMResponder_SetDeviceLabel exSt exSetLabelHeader
      [65]).2.2.using_factory_defaults = false := by
  decide

/-- C7 amended: RDMResponder_ResetToFactoryDefaults sets
using_factory_defaults; a successful SET of personality, start address
or identify to a different value clears it and to the current value
leaves it unchanged; a successful SET of the device label clears it
unconditionally, even when the stored label does not change. -/
theorem factory_defaults_flag (st : Responder) (header : RDMHeader)
    (param_data : List Nat) :
    ((RDMResponder_ResetToFactoryDefaults st).using_factory_defaults =
      true) ∧
    (header.param_data_length ≤ RDM_DEFAULT_STRING_SIZE →
      (RDMResponder_SetDeviceLabel st header
        param_data).2.2.using_factory_defaults = false) ∧
    (∀ definition, st.defn = some definition →
      header.param_data_length = 1 →
      param_data.getD 0 0 ≠ 0 →
      param_data.getD 0 0 ≤ definition.personality_count →
      ((param_data.getD 0 0 ≠ st.current_personality →
        (RDMResponder_SetDMXPersonality st header
          param_data).2.2.using_factory_defaults = false) ∧
       (param_data.getD 0 0 = st.current_personality →
        (RDMResponder_SetDMXPersonality st header
          param_data).2.2.using_factory_defaults =
            st.using_factory_defaults))) ∧
    (header.param_data_length = 2 →
      JoinShort (param_data.getD 0 0) (param_data.getD 1 0) ≠ 0 →
      JoinShort (param_data.getD 0 0) (param_data.getD 1 0) ≤
        MAX_DMX_START_ADDRESS →
      ((JoinShort (param_data.getD 0 0) (param_data.getD 1 0) ≠
          st.dmx_start_address →
        (RDMResponder_SetDMXStartAddress st header
          param_data).2.2.using_factory_defaults = false) ∧
       (JoinShort (param_data.getD 0 0) (param_data.getD 1 0) =
          st.dmx_start_address →
        (RDMResponder_SetDMXStartAddress st header
          param_data).2.2.using_factory_defaults =
            st.using_factory_defaults))) ∧
    (header.param_data_length = 1 →
      ((param_data.getD 0 0 = 0 →
        ((st.identify_on = true →
          (RDMResponder_SetIdentifyDevice st header
            param_data).2.2.using_factory_defaults = false) ∧
         (st.identify_on = false →
          (RDMResponder_SetIdentifyDevice st header
            param_data).2.2.using_factory_defaults =
              st.using_factory_defaults))) ∧
       (param_data.getD 0 0 = 1 →
        ((st.identify_on = false →
          (RDMResponder_SetIdentifyDevice st header
            param_data).2.2.using_factory_defaults = false) ∧
         (st.identify_on = true →
          (RDMResponder_SetIdentifyDevice st header
            param_data).2.2.using_factory_defaults =
              st.using_factory_defaults))))) := by
  refine ⟨rfl, ?_, ?_, ?_, ?_⟩
  · intro h
    unfold RDMResponder_SetDeviceLabel
    rw [if_neg (by omega)]
  · intro definition hdef h1 hnz hle
    have hcond : ¬ (param_data[0]?.getD 0 = 0 ∨
        definition.personality_count < param_data[0]?.getD 0) := by
      push_neg
      constructor
      · simpa using hnz
      · simpa using hle
    constructor
    · intro hne
      have hne2 : ¬ (st.current_personality = param_data[0]?.getD 0) := by
        simpa using (Ne.symm hne)
      simp [RDMResponder_SetDMXPersonality, h1, hdef, hcond, hne2]
    · intro heq
      have heq2 : st.current_personality = param_data[0]?.getD 0 := by
        simpa using heq.symm
      simp [RDMResponder_SetDMXPersonality, h1, hdef, hcond, heq2]
  · intro h2 hnz hle
    have hcond : ¬ (JoinShort (param_data[0]?.getD 0) (param_data[1]?.getD 0)
        = 0 ∨ MAX_DMX_START_ADDRESS <
          JoinShort (param_data[0]?.getD 0) (param_data[1]?.getD 0)) := by
      push_neg
      constructor
      · simpa using hnz
      · simpa using hle
    constructor
    · intro hne
      have hne2 : ¬ (st.dmx_start_address =
          JoinShort (param_data[0]?.getD 0) (param_data[1]?.getD 0)) := by
        simpa using (Ne.symm hne)
      simp [RDMResponder_SetDMXStartAddress, h2, hcond, hne2]
    · intro heq
      have heq2 : st.dmx_start_address =
          JoinShort (param_data[0]?.getD 0) (param_data[1]?.getD 0) := by
        simpa using heq.symm
      simp [RDMResponder_SetDMXStartAddress, h2, hcond, heq2]
  · intro h1
    constructor
    · intro h0
      have h0g : param_data[0]?.getD 0 = 0 := by simpa using h0
      constructor
      · intro hid
        simp [RDMResponder_SetIdentifyDevice, RDMResponder_GenericSetBool,
          h1, h0g, hid]
      · intro hid
        simp [RDMResponder_SetIdentifyDevice, RDMResponder_GenericSetBool,
          h1, h0g, hid]
    · intro hv1
      have hvg : param_data[0]?.getD 0 = 1 := by simpa using hv1
      constructor
      · intro hid
        simp [RDMResponder_SetIdentifyDevice, RDMResponder_GenericSetBool,
          h1, hvg, hid]
      · intro hid
        simp [RDMResponder_SetIdentifyDevice, RDMResponder_GenericSetBool,
          h1, hvg, hid]

/-- C7 witness: a SET DMX_START_ADDRESS changing the sample address from
1 to 5 clears the factory defaults flag. -/
theorem factory_defaults_flag_witness :
    (RDMResponder_SetDMXStartAddress exSt exSetAddrHeader
      [0, 5]).2.2.using_factory_defaults = false := by
  have h := (factory_defaults_flag exSt exSetAddrHeader [0, 5]).2.2.2.1
    rfl (by decide) (by decide)
  exact h.1 (by decide)
